import Mathlib

/-!
Shallow embedding of the CO2-cooling discrete-time thermal simulator.

The main embedding (`Sim4`) follows `src/simulation/laptopcoolingsim1yearsim4o1-pro.py`
line by line: all floats become rationals, timestamps are integers, and the
per-step loop body is split into the same blocks the source is written in
(microburst scheduling, Peltier management, fan management, emergency purge,
canister swap/refill, hiss depletion, explicit-Euler integration).  The CPU
workload function (which calls `np.sin`) is an injected collaborator in the
source's design, so the step takes the current workload value as a parameter.

`Sim2` embeds the parts of `src/simulation/laptopcoolingsim1yearsim2.py` that
differ (Peltier management with the hot-side ceiling, the refill that actually
refills), and `Laptop` embeds the fan-multiplier pipeline of
`src/co2cooling/laptop_sim.py`.
-/

namespace Sim4

-- system parameters, lines 18-51 of laptopcoolingsim1yearsim4o1-pro.py
def cpu_power_watts : ℚ := 37/2
def passive_dissipation_watts : ℚ := 3/2
def thermal_mass_j_per_c : ℚ := 300
def initial_temp_c : ℚ := 25
def critical_temp_c : ℚ := 90
def emergency_temp_c : ℚ := 75
def cooling_capacity_joules : ℚ := 2900
def purge_efficiency : ℚ := 17/20
def cooling_effective_joules : ℚ := cooling_capacity_joules * purge_efficiency
def cooldown_per_purge_c : ℚ := cooling_effective_joules / thermal_mass_j_per_c
def conduction_watts : ℚ := 11/5
def conduction_duration : ℤ := 180
def peltier_max_cooling_watts : ℚ := 30
def peltier_power_draw : ℚ := 30
def peltier_max_runtime : ℚ := 120
def peltier_efficiency_base : ℚ := 3/5
def battery_capacity_wh : ℚ := 8500000000
def fan_power_draw : ℚ := 1/4
def fan_efficiency_multiplier_base : ℚ := 13/10
def fan_ramp_time : ℚ := 1
def time_step_s : ℤ := 5

inductive FanMode where
  | PASSIVE | SLOW_HISS | PURGE | EMERGENCY | NORMAL
  deriving DecidableEq, Repr

/-- The module-level mutable trackers of the script, gathered into a record
(lines 56-86 of the source). `co2_hiss_contribution` and
`co2_purge_contribution` are the `cooling_contribution["co2_hiss"]` and
`cooling_contribution["co2_purge"]` entries, the only two the claims need. -/
structure SimState where
  canisters : ℚ × ℚ
  current_canister : Fin 2
  purge_count : ℕ
  canister_swaps : ℕ
  last_purge_time : ℤ
  temperature_c : ℚ
  peak_temp_c : ℚ
  temperature_log : List ℚ
  peltier_active : Bool
  peltier_runtime_s : ℚ
  battery_remaining_wh : ℚ
  hot_side_temp_c : ℚ
  fan_duty_cycle : ℚ
  fan_mode : FanMode
  co2_hiss_contribution : ℚ
  co2_purge_contribution : ℚ
  deriving DecidableEq

/-- `canisters[i]` -/
def getCan (c : ℚ × ℚ) (i : Fin 2) : ℚ := if i = 0 then c.1 else c.2

/-- `canisters[i] = v` -/
def setCan (c : ℚ × ℚ) (i : Fin 2) (v : ℚ) : ℚ × ℚ :=
  if i = 0 then (v, c.2) else (c.1, v)

/-- Initial tracker values (lines 56-76 of the source). -/
def initState : SimState where
  canisters := (cooling_capacity_joules, cooling_capacity_joules)
  current_canister := 0
  purge_count := 0
  canister_swaps := 0
  last_purge_time := -9999
  temperature_c := initial_temp_c
  peak_temp_c := initial_temp_c
  temperature_log := []
  peltier_active := true
  peltier_runtime_s := 0
  battery_remaining_wh := battery_capacity_wh
  hot_side_temp_c := initial_temp_c
  fan_duty_cycle := 0
  fan_mode := FanMode.PASSIVE
  co2_hiss_contribution := 0
  co2_purge_contribution := 0

/-- Lines 109-125 of the source. -/
def calculate_peltier_efficiency (cpu_temp hot_side_temp : ℚ) : ℚ :=
  let temp_diff := hot_side_temp - cpu_temp
  if temp_diff ≤ 0 then peltier_efficiency_base
  else
    let efficiency := peltier_efficiency_base * (1 - (temp_diff / 70)^2)
    let efficiency := if hot_side_temp > 85 then efficiency * (1/2) else efficiency
    max (1/10) (min peltier_efficiency_base efficiency)

/-- Lines 127-144 of the source. -/
def calculate_fan_multiplier (duty_cycle : ℚ) (is_post_purge : Bool) (purge_timer : ℚ) : ℚ :=
  if duty_cycle ≤ 0 then 1
  else
    let base_mult := 1 + (fan_efficiency_multiplier_base - 1) * (duty_cycle / 100)
    let speed_factor := 1 + (duty_cycle / 100) * (7/10)
    let purge_boost :=
      if is_post_purge then
        let decay_factor :=
          max 0 (min 1 (((conduction_duration : ℚ) - purge_timer) / (conduction_duration : ℚ)))
        1 + (1/2) * decay_factor
      else 1
    base_mult * speed_factor * purge_boost

/-- Lines 146-176 of the source; returns the new `(peltier_active, peltier_runtime_s)`.
The `co2_ok` argument is accepted and ignored, exactly as in the source. -/
def manage_peltier (cpu_temp battery_level : ℚ) (co2_ok : Bool) (time_since_purge : ℤ)
    (peltier_active : Bool) (peltier_runtime_s hot_side_temp_c : ℚ) : Bool × ℚ :=
  let _ := co2_ok
  let should_activate : Bool :=
    decide (cpu_temp > 70 ∧ battery_level > (5/100) * battery_capacity_wh ∧
      peltier_runtime_s < peltier_max_runtime ∧ hot_side_temp_c < 90)
  let should_deactivate : Bool :=
    decide (cpu_temp < 65 ∨ battery_level < (3/100) * battery_capacity_wh ∨
      peltier_runtime_s ≥ peltier_max_runtime)
  let post_purge_boost : Bool := decide (time_since_purge ≥ 0 ∧ time_since_purge < 60)
  if peltier_active then
    if should_deactivate then (false, 0) else (peltier_active, peltier_runtime_s)
  else
    if should_activate || post_purge_boost then
      if battery_level > (5/100) * battery_capacity_wh then (true, peltier_runtime_s)
      else (false, 0)
    else (peltier_active, peltier_runtime_s)

/-- Lines 178-216 of the source; returns the new `(fan_mode, fan_duty_cycle)`. -/
def manage_fan (cpu_temp : ℚ) (is_post_purge : Bool) (seconds_since_purge current_time : ℤ)
    (fan_duty_cycle : ℚ) : FanMode × ℚ :=
  let _ := seconds_since_purge
  let mt : FanMode × ℚ :=
    if cpu_temp < 50 ∧ is_post_purge = false then (FanMode.PASSIVE, 0)
    else if cpu_temp < 50 then
      (FanMode.SLOW_HISS, if current_time % 15 = 0 then 30 else 0)
    else if is_post_purge then (FanMode.PURGE, 70)
    else if cpu_temp > 70 then (FanMode.EMERGENCY, 100)
    else (FanMode.NORMAL, 50)
  let target_duty := mt.2
  let ramp_up_step := (100 / fan_ramp_time) * (time_step_s : ℚ)
  let ramp_down_step := ramp_up_step * (1/2)
  let d :=
    if target_duty > fan_duty_cycle then min target_duty (fan_duty_cycle + ramp_up_step)
    else if target_duty < fan_duty_cycle then max target_duty (fan_duty_cycle - ramp_down_step)
    else fan_duty_cycle
  (mt.1, max 0 (min 100 d))

/-- The Peltier block of the loop body (lines 265-286 of the source): runs
`manage_peltier`, then either heats the hot side, drains the battery and
accumulates runtime (active branch) or relaxes the hot side toward the CPU
temperature (inactive branch).  Returns the updated state together with
`base_peltier_cooling`. -/
def peltier_block (time_since_last_purge : ℤ) (s : SimState) : SimState × ℚ :=
  let pr := manage_peltier s.temperature_c s.battery_remaining_wh
    (decide (getCan s.canisters s.current_canister > 50)) time_since_last_purge
    s.peltier_active s.peltier_runtime_s s.hot_side_temp_c
  if pr.1 then
    let peltier_eff := calculate_peltier_efficiency s.temperature_c s.hot_side_temp_c
    let base_peltier_cooling := peltier_max_cooling_watts * peltier_eff
    let peltier_heat_generated := peltier_power_draw + base_peltier_cooling
    let hot_side_delta_t :=
      (peltier_heat_generated * (1/100) - passive_dissipation_watts * (1/10)) * (time_step_s : ℚ)
    ({ s with
        peltier_active := true
        peltier_runtime_s := pr.2 + (time_step_s : ℚ)
        battery_remaining_wh :=
          s.battery_remaining_wh - peltier_power_draw * (time_step_s : ℚ) / 3600
        hot_side_temp_c := max s.temperature_c (s.hot_side_temp_c + hot_side_delta_t) },
      base_peltier_cooling)
  else
    ({ s with
        peltier_active := false
        peltier_runtime_s := pr.2
        hot_side_temp_c :=
          max s.temperature_c
            (s.hot_side_temp_c -
              (s.hot_side_temp_c - s.temperature_c) * (1/10) * (time_step_s : ℚ)) },
      0)

/-- The fan block of the loop body (lines 289-295 of the source): runs
`manage_fan` and charges the fan's battery draw when the fan is active. -/
def fan_block (is_post_purge : Bool) (time_since_last_purge seconds : ℤ)
    (s : SimState) : SimState :=
  let fr := manage_fan s.temperature_c is_post_purge time_since_last_purge seconds
    s.fan_duty_cycle
  let s' := { s with fan_mode := fr.1, fan_duty_cycle := fr.2 }
  if fr.2 > 0 then
    { s' with battery_remaining_wh :=
        s'.battery_remaining_wh - fan_power_draw * (fr.2 / 100) * (time_step_s : ℚ) / 3600 }
  else s'

/-- The emergency-purge block (lines 329-349 of the source). -/
def purge_block (fan_multiplier : ℚ) (seconds : ℤ) (s : SimState) : SimState :=
  let needs_purge := s.temperature_c > critical_temp_c
  let maybe_purge := s.temperature_c > emergency_temp_c ∧
    getCan s.canisters s.current_canister < cooling_capacity_joules * (15/100)
  if needs_purge ∨ maybe_purge then
    if getCan s.canisters s.current_canister ≥ cooling_effective_joules then
      { s with
          temperature_c := s.temperature_c - cooldown_per_purge_c * fan_multiplier
          canisters := setCan s.canisters s.current_canister
            (getCan s.canisters s.current_canister - cooling_effective_joules)
          purge_count := s.purge_count + 1
          last_purge_time := seconds
          co2_purge_contribution := s.co2_purge_contribution + cooling_effective_joules }
    else s
  else s

/-- The canister swap-or-refill block (lines 351-374 of the source).  Note the
"refill" branch maps each canister through `min cooling_capacity_joules` — the
source's `[min(cooling_capacity_joules, c) for c in canisters]`. -/
def swap_block (s : SimState) : SimState :=
  if getCan s.canisters s.current_canister < 50 then
    let other_canister := 1 - s.current_canister
    if getCan s.canisters other_canister > 50 then
      { s with
          current_canister := other_canister
          canister_swaps := s.canister_swaps + 1 }
    else
      { s with
          canisters := (min cooling_capacity_joules s.canisters.1,
                        min cooling_capacity_joules s.canisters.2)
          current_canister := 0
          canister_swaps := s.canister_swaps + 1 }
  else s

/-- The microburst depletion applied after a potential swap (lines 379-380). -/
def hiss_block (hiss_energy : ℚ) (s : SimState) : SimState :=
  if hiss_energy > 0 then
    let depleted := max 0 (getCan s.canisters s.current_canister - hiss_energy)
    { s with canisters := setCan s.canisters s.current_canister depleted }
  else s

/-- The first half of one loop iteration (lines 223-327 of the source): the
post-purge bookkeeping, the microburst scheduling, the Peltier and fan blocks
and the cooling accounting.  Returns the updated state together with
`(fan_multiplier, hiss_energy, total_cooling)`, which the second half (purge,
swap, hiss depletion, integration) consumes. -/
def cool_phase (seconds : ℤ) (s : SimState) : SimState × ℚ × ℚ × ℚ :=
  let time_since_last_purge := seconds - s.last_purge_time
  let is_post_purge : Bool :=
    decide (0 ≤ time_since_last_purge ∧ time_since_last_purge ≤ conduction_duration)
  let post_purge_timer : ℤ :=
    if is_post_purge then conduction_duration - time_since_last_purge else 0
  let base_passive_cooling := passive_dissipation_watts
  let base_conduction_cooling : ℚ := if is_post_purge then conduction_watts else 0
  let burst_duration : ℚ :=
    if s.temperature_c < 50 then 3/10
    else if s.temperature_c < 70 then 1/2
    else if s.temperature_c < 75 then 7/10
    else 1
  let cycle_time : ℤ :=
    if s.temperature_c < 50 then 8
    else if s.temperature_c < 70 then 5
    else if s.temperature_c < 75 then 4
    else 3
  let burst_now : Bool := decide (getCan s.canisters s.current_canister > 0 ∧
    cycle_time > 0 ∧ seconds % cycle_time < time_step_s)
  let hiss_joules_per_burst := burst_duration * 3
  let hiss_energy : ℚ := if burst_now then hiss_joules_per_burst else 0
  let base_hiss_cooling := hiss_energy / (time_step_s : ℚ)
  let pb := peltier_block time_since_last_purge s
  let s1 := pb.1
  let base_peltier_cooling := pb.2
  let s2 := fan_block is_post_purge time_since_last_purge seconds s1
  let fan_multiplier :=
    calculate_fan_multiplier s2.fan_duty_cycle is_post_purge (post_purge_timer : ℚ)
  let total_cooling :=
    base_passive_cooling * fan_multiplier + base_conduction_cooling * fan_multiplier +
      base_hiss_cooling * fan_multiplier + base_peltier_cooling * fan_multiplier
  let s3 := { s2 with co2_hiss_contribution :=
    s2.co2_hiss_contribution + base_hiss_cooling * (time_step_s : ℚ) }
  (s3, fan_multiplier, hiss_energy, total_cooling)

/-- One iteration of the simulation loop (lines 223-407 of the source), with the
current CPU workload injected as `current_cpu_power` (the source computes it
from `np.sin`, an external collaborator).  The battery-exhaustion check lives in
the runner `run`, like the source's `break`. -/
def step (current_cpu_power : ℚ) (seconds : ℤ) (s : SimState) : SimState :=
  let cp := cool_phase seconds s
  let s3 := cp.1
  let fan_multiplier := cp.2.1
  let hiss_energy := cp.2.2.1
  let total_cooling := cp.2.2.2
  let s6 := hiss_block hiss_energy (swap_block (purge_block fan_multiplier seconds s3))
  let net_power := current_cpu_power - total_cooling
  let delta_temp := net_power * (time_step_s : ℚ) / thermal_mass_j_per_c
  let newT := max (initial_temp_c * (8/10)) (s6.temperature_c + delta_temp)
  { s6 with
      temperature_c := newT
      peak_temp_c := if newT > s6.peak_temp_c then newT else s6.peak_temp_c
      temperature_log := s6.temperature_log ++ [newT] }

/-- The simulation loop with the battery-exhaustion early halt (source lines
223, 402-407): runs up to `n` more steps starting at step index `t`, stopping
right after any step that leaves the battery at or below zero. -/
def run (workload : ℤ → ℚ) : ℕ → ℕ → SimState → SimState
  | 0, _, s => s
  | n + 1, t, s =>
    let s' := step (workload ((t : ℤ) * time_step_s)) ((t : ℤ) * time_step_s) s
    if s'.battery_remaining_wh ≤ 0 then s' else run workload n (t + 1) s'

/-- The same loop with no early halt: all `n` steps execute unconditionally. -/
def runAll (workload : ℤ → ℚ) : ℕ → ℕ → SimState → SimState
  | 0, _, s => s
  | n + 1, t, s =>
    runAll workload n (t + 1)
      (step (workload ((t : ℤ) * time_step_s)) ((t : ℤ) * time_step_s) s)

/-- Total canister energy, `sum(canisters)`. -/
def canSum (s : SimState) : ℚ := s.canisters.1 + s.canisters.2

/-- Total CO2 energy the accounting has charged to hiss bursts and purges. -/
def spentSum (s : SimState) : ℚ := s.co2_hiss_contribution + s.co2_purge_contribution

/-- The `post_purge_timer` value the loop computes from the time since the last
purge (lines 231-236 of the source). -/
def post_purge_timer_of (time_since_last_purge : ℤ) : ℤ :=
  if 0 ≤ time_since_last_purge ∧ time_since_last_purge ≤ conduction_duration then
    conduction_duration - time_since_last_purge
  else 0

end Sim4

namespace Sim2

-- parameters of laptopcoolingsim1yearsim2.py (lines 9-38)
def cooling_capacity_joules : ℚ := 2900
def peltier_max_runtime : ℚ := 120
def battery_capacity_wh : ℚ := 8500000000

/-- Lines 131-166 of laptopcoolingsim1yearsim2.py; unlike the sim4 variant, the
deactivation test also checks the hot side against the 95°C ceiling.  Returns
the new `(peltier_active, peltier_runtime_s)`. -/
def manage_peltier (cpu_temp battery_level : ℚ) (co2_available : Bool)
    (time_since_purge : ℤ) (peltier_active : Bool)
    (peltier_runtime_s hot_side_temp_c : ℚ) : Bool × ℚ :=
  let _ := co2_available
  let should_activate : Bool :=
    decide (cpu_temp > 70 ∧ battery_level > (5/100) * battery_capacity_wh ∧
      peltier_runtime_s < peltier_max_runtime ∧ hot_side_temp_c < 90)
  let should_deactivate : Bool :=
    decide (cpu_temp < 65 ∨ battery_level < (3/100) * battery_capacity_wh ∨
      hot_side_temp_c > 95 ∨ peltier_runtime_s ≥ peltier_max_runtime)
  let post_purge_boost : Bool := decide (time_since_purge ≥ 0 ∧ time_since_purge < 60)
  if peltier_active then
    if should_deactivate then (false, 0) else (peltier_active, peltier_runtime_s)
  else
    if should_activate || post_purge_boost then
      if battery_level > (5/100) * battery_capacity_wh then (true, peltier_runtime_s)
      else (false, 0)
    else (peltier_active, peltier_runtime_s)

/-- The swap-or-refill block of laptopcoolingsim1yearsim2.py (lines 347-362):
identical to the sim4 variant except that the refill branch actually refills,
`canisters = [cooling_capacity_joules, cooling_capacity_joules]`. -/
def swap_block (s : Sim4.SimState) : Sim4.SimState :=
  if Sim4.getCan s.canisters s.current_canister < 50 then
    let other_canister := 1 - s.current_canister
    if Sim4.getCan s.canisters other_canister > 50 then
      { s with
          current_canister := other_canister
          canister_swaps := s.canister_swaps + 1 }
    else
      { s with
          canisters := (cooling_capacity_joules, cooling_capacity_joules)
          current_canister := 0
          canister_swaps := s.canister_swaps + 1 }
  else s

end Sim2

namespace Laptop

-- parameters of co2cooling/laptop_sim.py (lines 8-38)
def FAN_EFFICIENCY_MULTIPLIER_BASE : ℚ := 13/10
def CONDUCTION_DURATION : ℤ := 180

/-- Lines 61-71 of co2cooling/laptop_sim.py: the decay factor is
`purge_timer / CONDUCTION_DURATION` (clamped to `[0,1]`), where the caller's
`purge_timer` counts down the remaining window. -/
def calculate_fan_multiplier (duty_cycle : ℚ) (is_post_purge : Bool)
    (purge_timer : ℚ) : ℚ :=
  if duty_cycle ≤ 0 then 1
  else
    let base_mult := 1 + (FAN_EFFICIENCY_MULTIPLIER_BASE - 1) * (duty_cycle / 100)
    let speed_factor := 1 + (duty_cycle / 100) * (7/10)
    let purge_boost :=
      if is_post_purge then
        let decay_factor := max 0 (min 1 (purge_timer / (CONDUCTION_DURATION : ℚ)))
        1 + (1/2) * decay_factor
      else 1
    base_mult * speed_factor * purge_boost

/-- Line 107 of co2cooling/laptop_sim.py: the `post_purge_timer` the loop hands
to `calculate_fan_multiplier`. -/
def post_purge_timer_of (time_since_last_purge : ℤ) : ℤ :=
  if 0 ≤ time_since_last_purge ∧ time_since_last_purge ≤ CONDUCTION_DURATION then
    CONDUCTION_DURATION - time_since_last_purge
  else 0

end Laptop

-- Concrete states used to exercise the blocks at specific inputs.

/-- A state at 91°C with full canisters: the purge condition holds. -/
def purgeReadyState : Sim4.SimState := { Sim4.initState with temperature_c := 91 }

/-- A state at 91°C whose active canister is just below the effective purge
energy while the purge condition still holds (active below the 15% low-fuel
fraction would not hold here, but 91°C is above the critical threshold). -/
def purgeShortState : Sim4.SimState :=
  { Sim4.initState with temperature_c := 91, canisters := (2464, 2900) }

/-- Both canisters below the 50 J swap threshold. -/
def bothLowState : Sim4.SimState := { Sim4.initState with canisters := (20, 30) }

/-- Active canister below the swap threshold, the other one healthy. -/
def swapReadyState : Sim4.SimState := { Sim4.initState with canisters := (40, 100) }

/-- Active canister holds 1/2 J — enough to gate a burst (`> 0`) but less than
the 9/10 J the burst delivers; the other canister is also nearly empty. -/
def nearEmptyState : Sim4.SimState :=
  { Sim4.initState with temperature_c := 30, canisters := (1/2, 2/5) }

/-- A state whose battery is already empty, so the step that follows it ends
with a non-positive battery. -/
def deadBatteryState : Sim4.SimState := { Sim4.initState with battery_remaining_wh := 0 }

namespace Sim4

lemma getCan_setCan_same (c : ℚ × ℚ) (i : Fin 2) (v : ℚ) :
    getCan (setCan c i v) i = v := by
  fin_cases i <;> simp [getCan, setCan]

lemma getCan_setCan_other (c : ℚ × ℚ) (i j : Fin 2) (v : ℚ) (h : j ≠ i) :
    getCan (setCan c i v) j = getCan c j := by
  fin_cases i <;> fin_cases j <;> simp_all [getCan, setCan]

lemma setCan_sum (c : ℚ × ℚ) (i : Fin 2) (v : ℚ) :
    (setCan c i v).1 + (setCan c i v).2 = c.1 + c.2 - getCan c i + v := by
  fin_cases i <;> (simp [getCan, setCan]; try ring)

lemma fin2_sub_ne (i : Fin 2) : (1 : Fin 2) - i ≠ i := by
  fin_cases i <;> decide

lemma efficiency_le_base (cpu hot : ℚ) :
    calculate_peltier_efficiency cpu hot ≤ peltier_efficiency_base := by
  rw [calculate_peltier_efficiency]
  split
  · exact le_refl _
  · exact max_le (by norm_num [peltier_efficiency_base]) (min_le_left _ _)

end Sim4

/-- Claim C5: for a fixed cpu temperature, `calculate_peltier_efficiency` is
non-increasing in the hot-side temperature on the range `hot ≥ cpu_temp`
(through the quadratic falloff, the 50% penalty above 85°C and the clamps),
and it equals the base efficiency constant whenever `hot ≤ cpu_temp`. -/
theorem claim_C5_peltier_efficiency_monotone :
    (∀ cpu h1 h2 : ℚ, cpu ≤ h1 → h1 ≤ h2 →
      Sim4.calculate_peltier_efficiency cpu h2 ≤ Sim4.calculate_peltier_efficiency cpu h1) ∧
    (∀ cpu hot : ℚ, hot ≤ cpu →
      Sim4.calculate_peltier_efficiency cpu hot = Sim4.peltier_efficiency_base) := by
  constructor
  · intro cpu h1 h2 _ h12
    by_cases hd1 : h1 - cpu ≤ 0
    · rw [show Sim4.calculate_peltier_efficiency cpu h1 = Sim4.peltier_efficiency_base from by
        rw [Sim4.calculate_peltier_efficiency, if_pos hd1]]
      exact Sim4.efficiency_le_base cpu h2
    · have hd1' : 0 < h1 - cpu := by linarith
      have hd2' : 0 < h2 - cpu := by linarith
      rw [Sim4.calculate_peltier_efficiency, Sim4.calculate_peltier_efficiency,
        if_neg (by linarith), if_neg (by linarith)]
      simp only
      have hsq : (h1 - cpu) ^ 2 ≤ (h2 - cpu) ^ 2 := by nlinarith
      rcases le_or_lt h2 85 with hb2 | hb2
      · have hb1 : h1 ≤ 85 := le_trans h12 hb2
        rw [if_neg (by linarith), if_neg (by linarith)]
        refine max_le_max (le_refl _) (min_le_min (le_refl _) ?_)
        rw [Sim4.peltier_efficiency_base]
        nlinarith
      · rcases le_or_lt h1 85 with hb1 | hb1
        · rw [if_pos (by linarith), if_neg (by linarith)]
          rcases le_or_lt 0 (1 - ((h2 - cpu) / 70) ^ 2) with hpos | hneg
          · refine max_le_max (le_refl _) (min_le_min (le_refl _) ?_)
            rw [Sim4.peltier_efficiency_base]
            nlinarith
          · have hlt : Sim4.peltier_efficiency_base * (1 - ((h2 - cpu) / 70) ^ 2) * (1/2) ≤ 1/10 := by
              rw [Sim4.peltier_efficiency_base]
              nlinarith
            have hmin : min Sim4.peltier_efficiency_base
                (Sim4.peltier_efficiency_base * (1 - ((h2 - cpu) / 70) ^ 2) * (1/2)) ≤ 1/10 :=
              le_trans (min_le_right _ _) hlt
            rw [max_eq_left hmin]
            exact le_max_left _ _
        · rw [if_pos (by linarith), if_pos (by linarith)]
          refine max_le_max (le_refl _) (min_le_min (le_refl _) ?_)
          rw [Sim4.peltier_efficiency_base]
          nlinarith
  · intro cpu hot h
    rw [Sim4.calculate_peltier_efficiency, if_pos (by linarith : hot - cpu ≤ 0)]

/-- Witness for C5 at concrete inputs: 50 ≤ 60 ≤ 80 for monotonicity and
40 ≤ 50 for the base-efficiency case. -/
theorem claim_C5_witness :
    Sim4.calculate_peltier_efficiency 50 80 ≤ Sim4.calculate_peltier_efficiency 50 60 ∧
    Sim4.calculate_peltier_efficiency 50 40 = Sim4.peltier_efficiency_base :=
  ⟨claim_C5_peltier_efficiency_monotone.1 50 60 80 (by norm_num) (by norm_num),
   claim_C5_peltier_efficiency_monotone.2 50 40 (by norm_num)⟩

/-- Claim C6: `calculate_fan_multiplier` returns exactly 1 whenever the duty
cycle is 0, for every post-purge flag and timer; and for any duty cycle in
[0,100], any flag and any timer in [0, conduction_duration] the multiplier is
at least 1 — it never reduces cooling below baseline. -/
theorem claim_C6_fan_multiplier_identity :
    (∀ (b : Bool) (timer : ℚ), Sim4.calculate_fan_multiplier 0 b timer = 1) ∧
    (∀ (duty : ℚ) (b : Bool) (timer : ℚ), 0 ≤ duty → duty ≤ 100 →
      0 ≤ timer → timer ≤ (Sim4.conduction_duration : ℚ) →
      1 ≤ Sim4.calculate_fan_multiplier duty b timer) := by
  constructor
  · intro b timer
    rw [Sim4.calculate_fan_multiplier, if_pos (le_refl (0 : ℚ))]
  · intro duty b timer h0 _ _ _
    rw [Sim4.calculate_fan_multiplier]
    split
    · exact le_refl 1
    · simp only
      have hbase : 1 ≤ 1 + (Sim4.fan_efficiency_multiplier_base - 1) * (duty / 100) := by
        rw [Sim4.fan_efficiency_multiplier_base]
        nlinarith
      have hspeed : 1 ≤ 1 + duty / 100 * (7/10) := by nlinarith
      have hboost : 1 ≤ (if b = true then
          1 + 1/2 * max 0 (min 1 (((Sim4.conduction_duration : ℤ) - timer) /
            (Sim4.conduction_duration : ℤ))) else 1) := by
        split
        · have : (0:ℚ) ≤ max 0 (min 1 (((Sim4.conduction_duration : ℤ) - timer) /
              (Sim4.conduction_duration : ℤ))) := le_max_left 0 _
          linarith
        · exact le_refl 1
      calc (1:ℚ) = 1 * 1 * 1 := by norm_num
        _ ≤ _ := by
            apply mul_le_mul (mul_le_mul hbase hspeed (by norm_num) (by linarith))
              hboost (by norm_num) ?_
            nlinarith

/-- Witness for C6 at concrete inputs: duty 0 with the post-purge flag set, and
duty 50 with timer 90 inside the window. -/
theorem claim_C6_witness :
    Sim4.calculate_fan_multiplier 0 true 17 = 1 ∧
    1 ≤ Sim4.calculate_fan_multiplier 50 true 90 :=
  ⟨claim_C6_fan_multiplier_identity.1 true 17,
   claim_C6_fan_multiplier_identity.2 50 true 90 (by norm_num) (by norm_num)
     (by norm_num) (by norm_num [Sim4.conduction_duration])⟩

/-- Claim C8 (the code diverges): in the sim4 variant the loop passes the
count-down timer `conduction_duration - time_since_purge` to a multiplier whose
decay factor is `(conduction_duration - purge_timer) / conduction_duration`,
so the composed purge boost is 1 immediately after a purge (multiplier 221/100,
exactly the no-boost value at duty 100) and grows to the full 3/2 boost
(multiplier 663/200) at the end of the window — the inverse of the claim.  In
the co2cooling/laptop_sim.py variant the same count-down timer is divided by
the window length, so the boost decays from 3/2 right after the purge to 1 at
the end of the window, exactly as the claim states. -/
theorem claim_C8_purge_boost_inversion :
    Sim4.calculate_fan_multiplier 100 false 0 = 221/100 ∧
    Sim4.calculate_fan_multiplier 100 true ((Sim4.post_purge_timer_of 0 : ℤ) : ℚ) = 221/100 ∧
    Sim4.calculate_fan_multiplier 100 true ((Sim4.post_purge_timer_of 180 : ℤ) : ℚ) = 663/200 ∧
    Laptop.calculate_fan_multiplier 100 true ((Laptop.post_purge_timer_of 0 : ℤ) : ℚ) = 663/200 ∧
    Laptop.calculate_fan_multiplier 100 true ((Laptop.post_purge_timer_of 180 : ℤ) : ℚ) = 221/100 := by
  norm_num [Sim4.calculate_fan_multiplier, Sim4.post_purge_timer_of,
    Sim4.fan_efficiency_multiplier_base, Sim4.conduction_duration,
    Laptop.calculate_fan_multiplier, Laptop.post_purge_timer_of,
    Laptop.FAN_EFFICIENCY_MULTIPLIER_BASE, Laptop.CONDUCTION_DURATION]

/-- Claim C1: whenever the purge condition holds (temperature above the
critical threshold, or above the emergency threshold with the active canister
below the 15% low-fuel fraction), the purge block performs exactly one purge if
the active canister holds at least the purge-effective energy — the temperature
drops by exactly `(cooling_effective_joules / thermal_mass) * fan_multiplier`,
the active canister loses exactly the effective energy, the purge counter
increments by one and `last_purge_time` becomes the current timestamp, with
everything else untouched — and does nothing at all when the active canister
holds less than the effective energy. -/
theorem claim_C1_purge_exact (m : ℚ) (seconds : ℤ) (s : Sim4.SimState)
    (hcond : s.temperature_c > Sim4.critical_temp_c ∨
      (s.temperature_c > Sim4.emergency_temp_c ∧
        Sim4.getCan s.canisters s.current_canister <
          Sim4.cooling_capacity_joules * (15/100))) :
    (Sim4.cooling_effective_joules ≤ Sim4.getCan s.canisters s.current_canister →
      Sim4.purge_block m seconds s =
        { s with
            temperature_c := s.temperature_c -
              Sim4.cooling_effective_joules / Sim4.thermal_mass_j_per_c * m
            canisters := Sim4.setCan s.canisters s.current_canister
              (Sim4.getCan s.canisters s.current_canister - Sim4.cooling_effective_joules)
            purge_count := s.purge_count + 1
            last_purge_time := seconds
            co2_purge_contribution :=
              s.co2_purge_contribution + Sim4.cooling_effective_joules }) ∧
    (Sim4.getCan s.canisters s.current_canister < Sim4.cooling_effective_joules →
      Sim4.purge_block m seconds s = s) := by
  constructor
  · intro hge
    rw [Sim4.purge_block]
    rw [if_pos hcond, if_pos hge, Sim4.cooldown_per_purge_c]
  · intro hlt
    rw [Sim4.purge_block]
    rw [if_pos hcond, if_neg (by exact not_le.mpr hlt)]

/-- Witness for C1: at 91°C (above critical) with a full 2900 J canister the
purge fires and leaves 435 J; with 2464 J < 2465 J the block is the identity. -/
theorem claim_C1_witness :
    Sim4.purge_block 1 40 purgeReadyState =
      { purgeReadyState with
          temperature_c := purgeReadyState.temperature_c -
            Sim4.cooling_effective_joules / Sim4.thermal_mass_j_per_c * 1
          canisters := Sim4.setCan purgeReadyState.canisters
            purgeReadyState.current_canister
            (Sim4.getCan purgeReadyState.canisters purgeReadyState.current_canister -
              Sim4.cooling_effective_joules)
          purge_count := purgeReadyState.purge_count + 1
          last_purge_time := 40
          co2_purge_contribution := purgeReadyState.co2_purge_contribution +
            Sim4.cooling_effective_joules } ∧
    Sim4.purge_block 1 40 purgeShortState = purgeShortState :=
  ⟨(claim_C1_purge_exact 1 40 purgeReadyState
      (Or.inl (by norm_num [purgeReadyState, Sim4.initState, Sim4.critical_temp_c]))).1
      (by norm_num [purgeReadyState, Sim4.initState, Sim4.getCan, Sim4.initial_temp_c,
        Sim4.cooling_effective_joules, Sim4.cooling_capacity_joules, Sim4.purge_efficiency]),
   (claim_C1_purge_exact 1 40 purgeShortState
      (Or.inl (by norm_num [purgeShortState, Sim4.initState, Sim4.critical_temp_c]))).2
      (by norm_num [purgeShortState, Sim4.initState, Sim4.getCan,
        Sim4.cooling_effective_joules, Sim4.cooling_capacity_joules, Sim4.purge_efficiency])⟩

/-- Claim C4 (code bug in the sim4 variant): with both canisters below the
50 J threshold — canisters at (20 J, 30 J), canister 0 active — the sim4
"refill" branch computes `min(capacity, c)` for each canister, which leaves
both energies exactly as they were, while still resetting the index to 0 and
counting a swap; the sim2 variant's branch, as the claim states, refills both
canisters to full capacity, switches to canister 0 and increments the swap
counter. -/
theorem claim_C4_refill_is_noop :
    ((Sim4.swap_block bothLowState).canisters = (20, 30) ∧
     (Sim4.swap_block bothLowState).current_canister = 0 ∧
     (Sim4.swap_block bothLowState).canister_swaps = 1) ∧
    ((Sim2.swap_block bothLowState).canisters = (2900, 2900) ∧
     (Sim2.swap_block bothLowState).current_canister = 0 ∧
     (Sim2.swap_block bothLowState).canister_swaps = 1) := by
  constructor
  · refine ⟨?_, ?_, ?_⟩ <;>
      norm_num [Sim4.swap_block, bothLowState, Sim4.initState, Sim4.getCan,
        Sim4.cooling_capacity_joules]
  · refine ⟨?_, ?_, ?_⟩ <;>
      norm_num [Sim2.swap_block, bothLowState, Sim4.initState, Sim4.getCan,
        Sim2.cooling_capacity_joules]

/-- Claim C7: in the sim2 variant, while the Peltier is active it is switched
off in a step exactly when the temperature is below 65°C, or the battery is
below the 3% critical floor, or the hot side is above the 95°C hard ceiling,
or the accumulated runtime has reached the maximum continuous runtime; and
every such deactivation resets the runtime to 0. -/
theorem claim_C7_peltier_deactivation (cpu_temp battery_level : ℚ) (co2 : Bool)
    (tsp : ℤ) (runtime hot_side : ℚ) :
    ((Sim2.manage_peltier cpu_temp battery_level co2 tsp true runtime hot_side).1 = false ↔
      (cpu_temp < 65 ∨ battery_level < (3/100) * Sim2.battery_capacity_wh ∨
        hot_side > 95 ∨ runtime ≥ Sim2.peltier_max_runtime)) ∧
    ((Sim2.manage_peltier cpu_temp battery_level co2 tsp true runtime hot_side).1 = false →
      (Sim2.manage_peltier cpu_temp battery_level co2 tsp true runtime hot_side).2 = 0) := by
  rw [Sim2.manage_peltier]
  by_cases h : cpu_temp < 65 ∨ battery_level < (3/100) * Sim2.battery_capacity_wh ∨
      hot_side > 95 ∨ runtime ≥ Sim2.peltier_max_runtime
  · simp [h]
  · simp [h]

namespace Sim4

lemma getCan_fst (c : ℚ × ℚ) : getCan c 0 = c.1 := by simp [getCan]

lemma getCan_snd (c : ℚ × ℚ) : getCan c 1 = c.2 := by simp [getCan]

lemma fin2_cases (i : Fin 2) : i = 0 ∨ i = 1 := by fin_cases i <;> simp

lemma peltier_block_canisters (t : ℤ) (s : SimState) :
    (peltier_block t s).1.canisters = s.canisters := by
  simp only [peltier_block]; split <;> rfl

lemma peltier_block_current (t : ℤ) (s : SimState) :
    (peltier_block t s).1.current_canister = s.current_canister := by
  simp only [peltier_block]; split <;> rfl

lemma peltier_block_co2_hiss (t : ℤ) (s : SimState) :
    (peltier_block t s).1.co2_hiss_contribution = s.co2_hiss_contribution := by
  simp only [peltier_block]; split <;> rfl

lemma peltier_block_co2_purge (t : ℤ) (s : SimState) :
    (peltier_block t s).1.co2_purge_contribution = s.co2_purge_contribution := by
  simp only [peltier_block]; split <;> rfl

lemma peltier_block_temperature (t : ℤ) (s : SimState) :
    (peltier_block t s).1.temperature_c = s.temperature_c := by
  simp only [peltier_block]; split <;> rfl

lemma peltier_block_log (t : ℤ) (s : SimState) :
    (peltier_block t s).1.temperature_log = s.temperature_log := by
  simp only [peltier_block]; split <;> rfl

lemma peltier_block_hot_side (t : ℤ) (s : SimState) :
    s.temperature_c ≤ (peltier_block t s).1.hot_side_temp_c := by
  simp only [peltier_block]; split <;> simp

lemma fan_block_canisters (b : Bool) (ts sec : ℤ) (s : SimState) :
    (fan_block b ts sec s).canisters = s.canisters := by
  simp only [fan_block]; split <;> rfl

lemma fan_block_current (b : Bool) (ts sec : ℤ) (s : SimState) :
    (fan_block b ts sec s).current_canister = s.current_canister := by
  simp only [fan_block]; split <;> rfl

lemma fan_block_co2_hiss (b : Bool) (ts sec : ℤ) (s : SimState) :
    (fan_block b ts sec s).co2_hiss_contribution = s.co2_hiss_contribution := by
  simp only [fan_block]; split <;> rfl

lemma fan_block_co2_purge (b : Bool) (ts sec : ℤ) (s : SimState) :
    (fan_block b ts sec s).co2_purge_contribution = s.co2_purge_contribution := by
  simp only [fan_block]; split <;> rfl

lemma fan_block_temperature (b : Bool) (ts sec : ℤ) (s : SimState) :
    (fan_block b ts sec s).temperature_c = s.temperature_c := by
  simp only [fan_block]; split <;> rfl

lemma fan_block_log (b : Bool) (ts sec : ℤ) (s : SimState) :
    (fan_block b ts sec s).temperature_log = s.temperature_log := by
  simp only [fan_block]; split <;> rfl

lemma cooling_effective_nonneg : (0:ℚ) ≤ cooling_effective_joules := by
  norm_num [cooling_effective_joules, cooling_capacity_joules, purge_efficiency]

lemma purge_block_current (m : ℚ) (t : ℤ) (u : SimState) :
    (purge_block m t u).current_canister = u.current_canister := by
  simp only [purge_block]; split_ifs <;> rfl

lemma purge_block_co2_hiss (m : ℚ) (t : ℤ) (u : SimState) :
    (purge_block m t u).co2_hiss_contribution = u.co2_hiss_contribution := by
  simp only [purge_block]; split_ifs <;> rfl

lemma purge_block_log (m : ℚ) (t : ℤ) (u : SimState) :
    (purge_block m t u).temperature_log = u.temperature_log := by
  simp only [purge_block]; split_ifs <;> rfl

lemma purge_block_conserve (m : ℚ) (t : ℤ) (u : SimState) :
    canSum (purge_block m t u) + (purge_block m t u).co2_purge_contribution =
      canSum u + u.co2_purge_contribution := by
  simp only [purge_block]; split_ifs
  · simp only [canSum]; rw [setCan_sum]; ring
  · rfl
  · rfl

lemma purge_block_other (m : ℚ) (t : ℤ) (u : SimState) :
    getCan (purge_block m t u).canisters (1 - u.current_canister) =
      getCan u.canisters (1 - u.current_canister) := by
  simp only [purge_block]; split_ifs
  · dsimp only; exact getCan_setCan_other _ _ _ _ (fin2_sub_ne _)
  · rfl
  · rfl

lemma purge_block_getCan_le (m : ℚ) (t : ℤ) (u : SimState) (i : Fin 2) :
    getCan (purge_block m t u).canisters i ≤ getCan u.canisters i := by
  simp only [purge_block]; split_ifs
  · try dsimp only
    by_cases hi : i = u.current_canister
    · subst hi; rw [getCan_setCan_same]
      linarith [cooling_effective_nonneg]
    · rw [getCan_setCan_other _ _ _ _ hi]
  · exact le_refl _
  · exact le_refl _

lemma swap_block_co2_hiss (u : SimState) :
    (swap_block u).co2_hiss_contribution = u.co2_hiss_contribution := by
  simp only [swap_block]; split_ifs <;> rfl

lemma swap_block_co2_purge (u : SimState) :
    (swap_block u).co2_purge_contribution = u.co2_purge_contribution := by
  simp only [swap_block]; split_ifs <;> rfl

lemma swap_block_log (u : SimState) :
    (swap_block u).temperature_log = u.temperature_log := by
  simp only [swap_block]; split_ifs <;> rfl

lemma swap_block_temperature (u : SimState) :
    (swap_block u).temperature_c = u.temperature_c := by
  simp only [swap_block]; split_ifs <;> rfl

lemma swap_block_canisters_eq (u : SimState)
    (h1 : u.canisters.1 ≤ cooling_capacity_joules)
    (h2 : u.canisters.2 ≤ cooling_capacity_joules) :
    (swap_block u).canisters = u.canisters := by
  simp only [swap_block]; split_ifs
  · rfl
  · dsimp only; rw [min_eq_right h1, min_eq_right h2]
  · rfl

lemma swap_block_canisters_of_other (u : SimState)
    (hoth : 50 < getCan u.canisters (1 - u.current_canister)) :
    (swap_block u).canisters = u.canisters := by
  simp only [swap_block]; split_ifs with ha <;> rfl

lemma swap_block_target (u : SimState)
    (hoth : 50 < getCan u.canisters (1 - u.current_canister)) :
    50 ≤ getCan u.canisters (swap_block u).current_canister := by
  simp only [swap_block]; split_ifs with ha
  · show 50 ≤ getCan u.canisters (1 - u.current_canister)
    exact le_of_lt hoth
  · show 50 ≤ getCan u.canisters u.current_canister
    exact not_lt.mp ha

lemma hiss_block_co2_hiss (e : ℚ) (u : SimState) :
    (hiss_block e u).co2_hiss_contribution = u.co2_hiss_contribution := by
  simp only [hiss_block]; split_ifs <;> rfl

lemma hiss_block_co2_purge (e : ℚ) (u : SimState) :
    (hiss_block e u).co2_purge_contribution = u.co2_purge_contribution := by
  simp only [hiss_block]; split_ifs <;> rfl

lemma hiss_block_log (e : ℚ) (u : SimState) :
    (hiss_block e u).temperature_log = u.temperature_log := by
  simp only [hiss_block]; split_ifs <;> rfl

lemma hiss_block_temperature (e : ℚ) (u : SimState) :
    (hiss_block e u).temperature_c = u.temperature_c := by
  simp only [hiss_block]; split_ifs <;> rfl

lemma hiss_block_sum_ge (e : ℚ) (u : SimState) (he0 : 0 ≤ e) :
    canSum u - e ≤ canSum (hiss_block e u) := by
  simp only [hiss_block]; split_ifs with h
  · simp only [canSum]; rw [setCan_sum]
    have := le_max_right (0:ℚ) (getCan u.canisters u.current_canister - e)
    linarith
  · simp only [canSum]; linarith

lemma hiss_block_cap (e : ℚ) (u : SimState) (i : Fin 2)
    (hcap : getCan u.canisters i ≤ cooling_capacity_joules) :
    getCan (hiss_block e u).canisters i ≤ cooling_capacity_joules := by
  simp only [hiss_block]; split_ifs with h
  · try dsimp only
    by_cases hi : i = u.current_canister
    · subst hi; rw [getCan_setCan_same]
      exact max_le (by norm_num [cooling_capacity_joules]) (by linarith)
    · rw [getCan_setCan_other _ _ _ _ hi]; exact hcap
  · exact hcap

lemma hiss_block_sum_noclamp (e : ℚ) (u : SimState) (he0 : 0 ≤ e)
    (hge : e ≤ getCan u.canisters u.current_canister) :
    canSum (hiss_block e u) = canSum u - e := by
  simp only [hiss_block]; split_ifs with h
  · simp only [canSum]
    rw [max_eq_right (by linarith), setCan_sum]; ring
  · have he : e = 0 := le_antisymm (not_lt.mp h) he0
    simp only [canSum]; rw [he]; ring

lemma cool_phase_canisters (t : ℤ) (s : SimState) :
    (cool_phase t s).1.canisters = s.canisters := by
  simp only [cool_phase]
  try dsimp only
  rw [fan_block_canisters, peltier_block_canisters]

lemma cool_phase_current (t : ℤ) (s : SimState) :
    (cool_phase t s).1.current_canister = s.current_canister := by
  simp only [cool_phase]
  try dsimp only
  rw [fan_block_current, peltier_block_current]

lemma cool_phase_co2_purge (t : ℤ) (s : SimState) :
    (cool_phase t s).1.co2_purge_contribution = s.co2_purge_contribution := by
  simp only [cool_phase]
  try dsimp only
  rw [fan_block_co2_purge, peltier_block_co2_purge]

lemma cool_phase_temperature (t : ℤ) (s : SimState) :
    (cool_phase t s).1.temperature_c = s.temperature_c := by
  simp only [cool_phase]
  try dsimp only
  rw [fan_block_temperature, peltier_block_temperature]

lemma cool_phase_log (t : ℤ) (s : SimState) :
    (cool_phase t s).1.temperature_log = s.temperature_log := by
  simp only [cool_phase]
  try dsimp only
  rw [fan_block_log, peltier_block_log]

lemma cool_phase_co2_hiss (t : ℤ) (s : SimState) :
    (cool_phase t s).1.co2_hiss_contribution =
      s.co2_hiss_contribution + (cool_phase t s).2.2.1 := by
  simp only [cool_phase]
  try dsimp only
  rw [fan_block_co2_hiss, peltier_block_co2_hiss]
  congr 1
  rw [div_mul_cancel₀]
  norm_num [time_step_s]

lemma cool_phase_hiss_nonneg (t : ℤ) (s : SimState) :
    0 ≤ (cool_phase t s).2.2.1 := by
  simp only [cool_phase]
  try dsimp only
  split_ifs <;> norm_num

lemma cool_phase_hiss_le3 (t : ℤ) (s : SimState) :
    (cool_phase t s).2.2.1 ≤ 3 := by
  simp only [cool_phase]
  try dsimp only
  split_ifs <;> norm_num

lemma step_canisters (p : ℚ) (t : ℤ) (s : SimState) :
    (step p t s).canisters =
      (hiss_block (cool_phase t s).2.2.1
        (swap_block (purge_block (cool_phase t s).2.1 t (cool_phase t s).1))).canisters := by
  simp only [step]

lemma step_co2_hiss (p : ℚ) (t : ℤ) (s : SimState) :
    (step p t s).co2_hiss_contribution =
      (hiss_block (cool_phase t s).2.2.1
        (swap_block (purge_block (cool_phase t s).2.1 t (cool_phase t s).1))).co2_hiss_contribution := by
  simp only [step]

lemma step_co2_purge (p : ℚ) (t : ℤ) (s : SimState) :
    (step p t s).co2_purge_contribution =
      (hiss_block (cool_phase t s).2.2.1
        (swap_block (purge_block (cool_phase t s).2.1 t (cool_phase t s).1))).co2_purge_contribution := by
  simp only [step]

lemma step_log_len (p : ℚ) (t : ℤ) (s : SimState) :
    (step p t s).temperature_log.length = s.temperature_log.length + 1 := by
  simp only [step]
  try dsimp only
  rw [List.length_append, hiss_block_log, swap_block_log, purge_block_log, cool_phase_log]
  rfl

/-- Accounting across the purge/swap/hiss pipeline: the purge's accounting is
exact; the swap never moves energy (given the capacity invariant, or a healthy
other canister); and the hiss depletion removes at most `e` — exactly `e` when
every canister holds at least 53 J at the start, because then whichever
canister is active after the swap holds at least 50 J ≥ e. -/
lemma pipeline_accounting (m : ℚ) (t : ℤ) (e : ℚ) (u : SimState)
    (he0 : 0 ≤ e) (he3 : e ≤ 3) :
    ((∀ i, getCan u.canisters i ≤ cooling_capacity_joules) →
      canSum u + u.co2_purge_contribution - e ≤
        canSum (hiss_block e (swap_block (purge_block m t u))) +
          (hiss_block e (swap_block (purge_block m t u))).co2_purge_contribution ∧
      (∀ i, getCan (hiss_block e (swap_block (purge_block m t u))).canisters i ≤
        cooling_capacity_joules)) ∧
    (53 ≤ getCan u.canisters 0 → 53 ≤ getCan u.canisters 1 →
      canSum (hiss_block e (swap_block (purge_block m t u))) +
        (hiss_block e (swap_block (purge_block m t u))).co2_purge_contribution =
        canSum u + u.co2_purge_contribution - e) ∧
    (hiss_block e (swap_block (purge_block m t u))).co2_hiss_contribution =
      u.co2_hiss_contribution := by
  set q := purge_block m t u with hq
  set w := swap_block q with hw
  have q_cur : q.current_canister = u.current_canister := purge_block_current m t u
  have q_cons : canSum q + q.co2_purge_contribution = canSum u + u.co2_purge_contribution :=
    purge_block_conserve m t u
  have q_other : getCan q.canisters (1 - u.current_canister) =
      getCan u.canisters (1 - u.current_canister) := purge_block_other m t u
  have q_le : ∀ i, getCan q.canisters i ≤ getCan u.canisters i := purge_block_getCan_le m t u
  have w_pur : w.co2_purge_contribution = q.co2_purge_contribution := swap_block_co2_purge q
  have h_pur : (hiss_block e w).co2_purge_contribution = w.co2_purge_contribution :=
    hiss_block_co2_purge e w
  refine ⟨?_, ?_, ?_⟩
  · intro hcap
    have qcap : ∀ i, getCan q.canisters i ≤ cooling_capacity_joules :=
      fun i => (q_le i).trans (hcap i)
    have wcan : w.canisters = q.canisters := by
      refine swap_block_canisters_eq q ?_ ?_
      · rw [← getCan_fst]; exact qcap 0
      · rw [← getCan_snd]; exact qcap 1
    have wsum : canSum w = canSum q := by unfold canSum; rw [wcan]
    have hsum : canSum w - e ≤ canSum (hiss_block e w) := hiss_block_sum_ge e w he0
    constructor
    · rw [h_pur, w_pur]; linarith
    · intro i
      refine hiss_block_cap e w i ?_
      rw [wcan]; exact qcap i
  · intro h0 h1
    have hoth_u : 50 < getCan u.canisters (1 - u.current_canister) := by
      rcases fin2_cases (1 - u.current_canister) with h | h <;> rw [h] <;> linarith
    have hoth_q : 50 < getCan q.canisters (1 - q.current_canister) := by
      rw [q_cur, q_other]; exact hoth_u
    have wcan : w.canisters = q.canisters := swap_block_canisters_of_other q hoth_q
    have wtarget : 50 ≤ getCan q.canisters w.current_canister := swap_block_target q hoth_q
    have hge : e ≤ getCan w.canisters w.current_canister := by
      rw [wcan]; linarith
    have hsum : canSum (hiss_block e w) = canSum w - e := hiss_block_sum_noclamp e w he0 hge
    have wsum : canSum w = canSum q := by unfold canSum; rw [wcan]
    rw [hsum, wsum, h_pur, w_pur]; linarith
  · rw [hiss_block_co2_hiss, swap_block_co2_hiss, purge_block_co2_hiss]

/-- One-step accounting for the sim4 loop: with both canisters within capacity,
`sum(canisters) + spent` never decreases and the capacity invariant is kept;
with both canisters at 53 J or more, the step conserves it exactly. -/
lemma step_accounting (p : ℚ) (t : ℤ) (s : SimState) :
    (s.canisters.1 ≤ cooling_capacity_joules → s.canisters.2 ≤ cooling_capacity_joules →
      canSum s + spentSum s ≤ canSum (step p t s) + spentSum (step p t s) ∧
      (step p t s).canisters.1 ≤ cooling_capacity_joules ∧
      (step p t s).canisters.2 ≤ cooling_capacity_joules) ∧
    (53 ≤ getCan s.canisters 0 → 53 ≤ getCan s.canisters 1 →
      canSum (step p t s) + spentSum (step p t s) = canSum s + spentSum s) := by
  have key := pipeline_accounting (cool_phase t s).2.1 t (cool_phase t s).2.2.1
    (cool_phase t s).1 (cool_phase_hiss_nonneg t s) (cool_phase_hiss_le3 t s)
  have ucan := cool_phase_canisters t s
  have upur := cool_phase_co2_purge t s
  have uhiss := cool_phase_co2_hiss t s
  have usum : canSum (cool_phase t s).1 = canSum s := by unfold canSum; rw [ucan]
  have hstep_sum : canSum (step p t s) =
      canSum (hiss_block (cool_phase t s).2.2.1
        (swap_block (purge_block (cool_phase t s).2.1 t (cool_phase t s).1))) := by
    unfold canSum; rw [step_canisters]
  have hstep_spent : spentSum (step p t s) =
      (cool_phase t s).1.co2_hiss_contribution +
      (hiss_block (cool_phase t s).2.2.1
        (swap_block (purge_block (cool_phase t s).2.1 t (cool_phase t s).1))).co2_purge_contribution := by
    unfold spentSum
    rw [step_co2_hiss, step_co2_purge, key.2.2]
  constructor
  · intro hc1 hc2
    have hcap : ∀ i, getCan (cool_phase t s).1.canisters i ≤ cooling_capacity_joules := by
      intro i
      rw [ucan]
      rcases fin2_cases i with h | h <;> rw [h]
      · rw [getCan_fst]; exact hc1
      · rw [getCan_snd]; exact hc2
    obtain ⟨hle, hcaps⟩ := key.1 hcap
    rw [usum, upur] at hle
    refine ⟨?_, ?_, ?_⟩
    · rw [hstep_sum, hstep_spent, uhiss]
      unfold spentSum
      linarith
    · have := hcaps 0
      rw [← step_canisters p t s] at this
      rw [← getCan_fst]; exact this
    · have := hcaps 1
      rw [← step_canisters p t s] at this
      rw [← getCan_snd]; exact this
  · intro h0 h1
    have h0' : 53 ≤ getCan (cool_phase t s).1.canisters 0 := by rw [ucan]; exact h0
    have h1' : 53 ≤ getCan (cool_phase t s).1.canisters 1 := by rw [ucan]; exact h1
    have heq := key.2.1 h0' h1'
    rw [hstep_sum, hstep_spent, uhiss]
    unfold spentSum
    rw [usum, upur] at heq
    linarith [heq]

lemma runAll_succ (w : ℤ → ℚ) (n t : ℕ) (s : SimState) :
    runAll w (n + 1) t s =
      runAll w n (t + 1) (step (w ((t : ℤ) * time_step_s)) ((t : ℤ) * time_step_s) s) := rfl

lemma runAll_log_len (w : ℤ → ℚ) (n t : ℕ) (s : SimState) :
    (runAll w n t s).temperature_log.length = s.temperature_log.length + n := by
  induction n generalizing t s with
  | zero => rfl
  | succ n ih =>
    rw [runAll_succ, ih, step_log_len]
    omega

end Sim4

/-- Claim C2 counterexample: one step of the sim4 loop from the initial state
(with the initial workload value `18.5 * 0.85 = 629/40` W injected) already
ends with the hot side strictly colder than the device side: the hot-side
clamp runs inside the Peltier block, and the explicit-Euler integration at the
end of the step raises the device temperature above it without re-clamping. -/
theorem claim_C2_counterexample :
    (Sim4.step (629/40) 0 Sim4.initState).hot_side_temp_c <
      (Sim4.step (629/40) 0 Sim4.initState).temperature_c := by
  norm_num [Sim4.step, Sim4.cool_phase, Sim4.initState, Sim4.peltier_block, Sim4.fan_block,
    Sim4.purge_block, Sim4.swap_block, Sim4.hiss_block, Sim4.manage_peltier, Sim4.manage_fan,
    Sim4.calculate_peltier_efficiency, Sim4.calculate_fan_multiplier, Sim4.getCan, Sim4.setCan,
    Sim4.conduction_duration, Sim4.time_step_s, Sim4.passive_dissipation_watts,
    Sim4.thermal_mass_j_per_c, Sim4.initial_temp_c, Sim4.critical_temp_c, Sim4.emergency_temp_c,
    Sim4.cooling_capacity_joules, Sim4.purge_efficiency, Sim4.cooling_effective_joules,
    Sim4.cooldown_per_purge_c, Sim4.conduction_watts, Sim4.peltier_max_cooling_watts,
    Sim4.peltier_power_draw, Sim4.peltier_max_runtime, Sim4.peltier_efficiency_base,
    Sim4.battery_capacity_wh, Sim4.fan_power_draw, Sim4.fan_efficiency_multiplier_base,
    Sim4.fan_ramp_time]

/-- Claim C2 (amended): the invariant `hot_side_temp_c ≥ temperature_c` is
enforced at the point of the hot-side update — both branches of the Peltier
block clamp the hot side to at least the device temperature, which that block
leaves unchanged — but it is not re-enforced after the purge and the
explicit-Euler integration later in the same step, and can be false at the end
of a step. -/
theorem claim_C2_hot_side_clamp (t : ℤ) (s : Sim4.SimState) :
    s.temperature_c ≤ (Sim4.peltier_block t s).1.hot_side_temp_c ∧
    (Sim4.peltier_block t s).1.temperature_c = s.temperature_c :=
  ⟨Sim4.peltier_block_hot_side t s, Sim4.peltier_block_temperature t s⟩

/-- Claim C3 counterexample: from a reachable-shape state whose active canister
holds 1/2 J (enough to gate a burst, less than the 9/10 J the burst delivers)
one step breaks conservation: the burst is credited 9/10 J of delivered CO2
cooling while the zero-clamp removes only the remaining 1/2 J from the
canister. -/
theorem claim_C3_counterexample :
    Sim4.canSum (Sim4.step (629/40) 0 nearEmptyState) +
      Sim4.spentSum (Sim4.step (629/40) 0 nearEmptyState) ≠
    Sim4.canSum nearEmptyState + Sim4.spentSum nearEmptyState := by
  norm_num [Sim4.step, Sim4.cool_phase, nearEmptyState, Sim4.initState, Sim4.peltier_block,
    Sim4.fan_block, Sim4.purge_block, Sim4.swap_block, Sim4.hiss_block, Sim4.manage_peltier,
    Sim4.manage_fan, Sim4.calculate_peltier_efficiency, Sim4.calculate_fan_multiplier,
    Sim4.getCan, Sim4.setCan, Sim4.canSum, Sim4.spentSum,
    Sim4.conduction_duration, Sim4.time_step_s, Sim4.passive_dissipation_watts,
    Sim4.thermal_mass_j_per_c, Sim4.initial_temp_c, Sim4.critical_temp_c, Sim4.emergency_temp_c,
    Sim4.cooling_capacity_joules, Sim4.purge_efficiency, Sim4.cooling_effective_joules,
    Sim4.cooldown_per_purge_c, Sim4.conduction_watts, Sim4.peltier_max_cooling_watts,
    Sim4.peltier_power_draw, Sim4.peltier_max_runtime, Sim4.peltier_efficiency_base,
    Sim4.battery_capacity_wh, Sim4.fan_power_draw, Sim4.fan_efficiency_multiplier_base,
    Sim4.fan_ramp_time]

/-- Claim C3 (amended): CO2 accounting can only inflate, never destroy:
over any run with both canisters within capacity,
`sum(canisters) + spent(hiss) + spent(purge)` never decreases (a hiss burst
may deliver more cooling than it removes, never less); and a single step
conserves the quantity exactly whenever both canisters hold at least 53 J at
the start of the step — then the canister depleted by the burst (after any
swap) holds at least the burst energy and the clamp never engages, while the
purge's guard already makes its accounting exact. -/
theorem claim_C3_amended :
    (∀ (w : ℤ → ℚ) (n t : ℕ) (s : Sim4.SimState),
      s.canisters.1 ≤ Sim4.cooling_capacity_joules →
      s.canisters.2 ≤ Sim4.cooling_capacity_joules →
      Sim4.canSum s + Sim4.spentSum s ≤
        Sim4.canSum (Sim4.runAll w n t s) + Sim4.spentSum (Sim4.runAll w n t s)) ∧
    (∀ (p : ℚ) (t : ℤ) (s : Sim4.SimState),
      53 ≤ Sim4.getCan s.canisters 0 → 53 ≤ Sim4.getCan s.canisters 1 →
      Sim4.canSum (Sim4.step p t s) + Sim4.spentSum (Sim4.step p t s) =
        Sim4.canSum s + Sim4.spentSum s) := by
  constructor
  · intro w n
    induction n with
    | zero => intro t s _ _; exact le_refl _
    | succ n ih =>
      intro t s h1 h2
      rw [Sim4.runAll_succ]
      obtain ⟨hle, hcap1, hcap2⟩ := (Sim4.step_accounting
        (w ((t : ℤ) * Sim4.time_step_s)) ((t : ℤ) * Sim4.time_step_s) s).1 h1 h2
      exact le_trans hle (ih (t + 1) _ hcap1 hcap2)
  · intro p t s h0 h1
    exact (Sim4.step_accounting p t s).2 h0 h1

/-- Witness for C3 (amended) at the initial state: one halt-free step from full
canisters both preserves the capacity bound and conserves the accounting
exactly. -/
theorem claim_C3_witness :
    Sim4.canSum Sim4.initState + Sim4.spentSum Sim4.initState ≤
      Sim4.canSum (Sim4.runAll (fun _ => 629/40) 1 0 Sim4.initState) +
        Sim4.spentSum (Sim4.runAll (fun _ => 629/40) 1 0 Sim4.initState) ∧
    Sim4.canSum (Sim4.step (629/40) 0 Sim4.initState) +
        Sim4.spentSum (Sim4.step (629/40) 0 Sim4.initState) =
      Sim4.canSum Sim4.initState + Sim4.spentSum Sim4.initState :=
  ⟨claim_C3_amended.1 (fun _ => 629/40) 1 0 Sim4.initState
      (by norm_num [Sim4.initState, Sim4.cooling_capacity_joules])
      (by norm_num [Sim4.initState, Sim4.cooling_capacity_joules]),
   claim_C3_amended.2 (629/40) 0 Sim4.initState
      (by norm_num [Sim4.initState, Sim4.getCan, Sim4.cooling_capacity_joules])
      (by norm_num [Sim4.initState, Sim4.getCan, Sim4.cooling_capacity_joules])⟩

/-- Claim C9: the sim4 runner halts right after any step that leaves the
battery at or below zero — the remaining steps never execute and the output
log gains exactly the one entry of the depleting step — and whenever the
battery stays positive after every step, the halting runner coincides with the
unconditional one, which executes all configured steps (one log entry per
step). -/
theorem claim_C9_battery_halt :
    (∀ (w : ℤ → ℚ) (n t : ℕ) (s : Sim4.SimState),
      (Sim4.step (w ((t : ℤ) * Sim4.time_step_s)) ((t : ℤ) * Sim4.time_step_s)
          s).battery_remaining_wh ≤ 0 →
      Sim4.run w (n + 1) t s =
        Sim4.step (w ((t : ℤ) * Sim4.time_step_s)) ((t : ℤ) * Sim4.time_step_s) s ∧
      (Sim4.run w (n + 1) t s).temperature_log.length =
        s.temperature_log.length + 1) ∧
    (∀ (w : ℤ → ℚ) (n t : ℕ) (s : Sim4.SimState),
      (∀ k, k < n → 0 < (Sim4.runAll w (k + 1) t s).battery_remaining_wh) →
      Sim4.run w n t s = Sim4.runAll w n t s) ∧
    (∀ (w : ℤ → ℚ) (n t : ℕ) (s : Sim4.SimState),
      (Sim4.runAll w n t s).temperature_log.length = s.temperature_log.length + n) := by
  refine ⟨?_, ?_, ?_⟩
  · intro w n t s h
    have heq : Sim4.run w (n + 1) t s =
        Sim4.step (w ((t : ℤ) * Sim4.time_step_s)) ((t : ℤ) * Sim4.time_step_s) s := by
      simp only [Sim4.run]
      rw [if_pos h]
    refine ⟨heq, ?_⟩
    rw [heq, Sim4.step_log_len]
  · intro w n
    induction n with
    | zero => intro t s _; rfl
    | succ n ih =>
      intro t s hpos
      have hb : 0 < (Sim4.step (w ((t : ℤ) * Sim4.time_step_s)) ((t : ℤ) * Sim4.time_step_s)
          s).battery_remaining_wh := hpos 0 (Nat.succ_pos n)
      simp only [Sim4.run]
      rw [if_neg (not_le.mpr hb)]
      exact ih (t + 1) _ (fun k hk => hpos (k + 1) (Nat.succ_lt_succ hk))
  · intro w n t s
    exact Sim4.runAll_log_len w n t s

/-- Witness for C9: from a state whose battery is already empty the runner
stops after the very first step even though three were requested, while from
the healthy initial state a one-step run coincides with the unconditional
runner. -/
theorem claim_C9_witness :
    Sim4.run (fun _ => 629/40) 3 0 deadBatteryState =
      Sim4.step (629/40) 0 deadBatteryState ∧
    Sim4.run (fun _ => 629/40) 1 0 Sim4.initState =
      Sim4.runAll (fun _ => 629/40) 1 0 Sim4.initState :=
  ⟨(claim_C9_battery_halt.1 (fun _ => 629/40) 2 0 deadBatteryState
      (by norm_num [Sim4.step, Sim4.cool_phase, deadBatteryState, Sim4.initState,
        Sim4.peltier_block, Sim4.fan_block, Sim4.purge_block, Sim4.swap_block, Sim4.hiss_block,
        Sim4.manage_peltier, Sim4.manage_fan, Sim4.calculate_peltier_efficiency,
        Sim4.calculate_fan_multiplier, Sim4.getCan, Sim4.setCan,
        Sim4.conduction_duration, Sim4.time_step_s, Sim4.passive_dissipation_watts,
        Sim4.thermal_mass_j_per_c, Sim4.initial_temp_c, Sim4.critical_temp_c,
        Sim4.emergency_temp_c, Sim4.cooling_capacity_joules, Sim4.purge_efficiency,
        Sim4.cooling_effective_joules, Sim4.cooldown_per_purge_c, Sim4.conduction_watts,
        Sim4.peltier_max_cooling_watts, Sim4.peltier_power_draw, Sim4.peltier_max_runtime,
        Sim4.peltier_efficiency_base, Sim4.battery_capacity_wh, Sim4.fan_power_draw,
        Sim4.fan_efficiency_multiplier_base, Sim4.fan_ramp_time])).1,
   claim_C9_battery_halt.2.1 (fun _ => 629/40) 1 0 Sim4.initState (by
      intro k hk
      have hk0 : k = 0 := by omega
      subst hk0
      show 0 < (Sim4.step (629/40) 0 Sim4.initState).battery_remaining_wh
      norm_num [Sim4.step, Sim4.cool_phase, Sim4.initState,
        Sim4.peltier_block, Sim4.fan_block, Sim4.purge_block, Sim4.swap_block, Sim4.hiss_block,
        Sim4.manage_peltier, Sim4.manage_fan, Sim4.calculate_peltier_efficiency,
        Sim4.calculate_fan_multiplier, Sim4.getCan, Sim4.setCan,
        Sim4.conduction_duration, Sim4.time_step_s, Sim4.passive_dissipation_watts,
        Sim4.thermal_mass_j_per_c, Sim4.initial_temp_c, Sim4.critical_temp_c,
        Sim4.emergency_temp_c, Sim4.cooling_capacity_joules, Sim4.purge_efficiency,
        Sim4.cooling_effective_joules, Sim4.cooldown_per_purge_c, Sim4.conduction_watts,
        Sim4.peltier_max_cooling_watts, Sim4.peltier_power_draw, Sim4.peltier_max_runtime,
        Sim4.peltier_efficiency_base, Sim4.battery_capacity_wh, Sim4.fan_power_draw,
        Sim4.fan_efficiency_multiplier_base, Sim4.fan_ramp_time])⟩

/-- Claim C10: when the swap/refill stage changes the active canister index in
a step whose burst already fired (gated on the canister active at the start of
the step), the hiss depletion — clamped below at zero — is applied to the
newly active canister, and hiss consumption leaves the canister that gated the
burst untouched. -/
theorem claim_C10_hiss_hits_new_canister (e : ℚ) (s : Sim4.SimState)
    (hcap1 : s.canisters.1 ≤ Sim4.cooling_capacity_joules)
    (hcap2 : s.canisters.2 ≤ Sim4.cooling_capacity_joules)
    (hchange : (Sim4.swap_block s).current_canister ≠ s.current_canister)
    (he : 0 < e) :
    Sim4.getCan (Sim4.hiss_block e (Sim4.swap_block s)).canisters
        (Sim4.swap_block s).current_canister =
      max 0 (Sim4.getCan s.canisters (Sim4.swap_block s).current_canister - e) ∧
    Sim4.getCan (Sim4.hiss_block e (Sim4.swap_block s)).canisters s.current_canister =
      Sim4.getCan s.canisters s.current_canister := by
  have hsc : (Sim4.swap_block s).canisters = s.canisters :=
    Sim4.swap_block_canisters_eq s hcap1 hcap2
  constructor
  · simp only [Sim4.hiss_block]
    rw [if_pos he, Sim4.getCan_setCan_same, hsc]
  · simp only [Sim4.hiss_block]
    rw [if_pos he, Sim4.getCan_setCan_other _ _ _ _ (Ne.symm hchange), hsc]

/-- Witness for C10: canisters (40 J, 100 J) with canister 0 active swap to
canister 1, and a 9/10 J burst is charged to canister 1 while canister 0 keeps
its 40 J. -/
theorem claim_C10_witness :
    Sim4.getCan (Sim4.hiss_block (9/10) (Sim4.swap_block swapReadyState)).canisters
        (Sim4.swap_block swapReadyState).current_canister =
      max 0 (Sim4.getCan swapReadyState.canisters
        (Sim4.swap_block swapReadyState).current_canister - 9/10) ∧
    Sim4.getCan (Sim4.hiss_block (9/10) (Sim4.swap_block swapReadyState)).canisters
        swapReadyState.current_canister =
      Sim4.getCan swapReadyState.canisters swapReadyState.current_canister :=
  claim_C10_hiss_hits_new_canister (9/10) swapReadyState
    (by norm_num [swapReadyState, Sim4.initState, Sim4.cooling_capacity_joules])
    (by norm_num [swapReadyState, Sim4.initState, Sim4.cooling_capacity_joules])
    (by norm_num [Sim4.swap_block, swapReadyState, Sim4.initState, Sim4.getCan])
    (by norm_num)

